import Mathlib

/-
Verification of the InsightEngine synthetic data generators
(src/tools/InsightEngine.DataGenerator).

Each Python generator is embedded as a pure Lean function from the sequence
of random draws it consumes to the list of rows it assembles.  A row is the
Python dict literal of the source, modelled as an ordered association list
from field names to scalar values.  Python floats are idealized as exact
rationals; `round(x, k)` is round-half-to-even at the k-th decimal, and
`int(x)` is truncation toward zero.  Values produced by the locale-aware
fake-data provider (names, dates, sentences, ...) and by the categorical /
numeric samplers are inputs of the embedding: every theorem quantifies over
them, with the sampler's contract (e.g. a `randint(a, b)` draw lies in
`[a, b]`, a beta draw lies in `[0, 1]`) taken as a hypothesis where needed.
-/

namespace InsightEngine

/-- Scalar cell value of a generated record: a string, a Python int, a
Python float (idealized as an exact rational), the `None` marker used for
optional fields, or a non-finite float (the result of a float division by
zero, which numpy turns into `inf`/`nan` rather than raising). -/
inductive Value where
  | vStr (s : String)
  | vInt (n : ℤ)
  | vRat (q : ℚ)
  | vNone
  | vNaN
deriving DecidableEq

/-- A generated record: the Python dict literal of a generator, as an
ordered association list from field name to value. -/
abbrev Row := List (String × Value)

/-- Value stored under a field name (first occurrence), `vNone` if absent. -/
def fieldOf : Row → String → Value
  | [], _ => Value.vNone
  | (k, v) :: r, s => if k = s then v else fieldOf r s

/-- Numeric content of a field, coercing a Python int to a rational. -/
def getRat (r : Row) (s : String) : ℚ :=
  match fieldOf r s with
  | Value.vRat q => q
  | Value.vInt n => (n : ℚ)
  | _ => 0

/-- The ordered field names of a record (the dict's key order). -/
def fieldNames (r : Row) : List String := r.map Prod.fst

/-- Python `int()` truncation toward zero on a rational. -/
def pyInt (q : ℚ) : ℤ := if 0 ≤ q then ⌊q⌋ else -⌊-q⌋

/-- Round a rational to the nearest integer, ties to even
(Python's `round` tie-breaking, idealized over exact rationals). -/
def rnd (q : ℚ) : ℤ :=
  if q - ⌊q⌋ < 1/2 then ⌊q⌋
  else if 1/2 < q - ⌊q⌋ then ⌊q⌋ + 1
  else if ⌊q⌋ % 2 = 0 then ⌊q⌋ else ⌊q⌋ + 1

/-- Python `round(q, k)`: round-half-to-even at the k-th decimal place. -/
def roundTo (k : ℕ) (q : ℚ) : ℚ := (rnd (q * 10 ^ k) : ℚ) / 10 ^ k

/-- Python `round(q, 2)`, the rounding applied to currency fields. -/
def round2 : ℚ → ℚ := roundTo 2

theorem rnd_cases (q : ℚ) : rnd q = ⌊q⌋ ∨ rnd q = ⌊q⌋ + 1 := by
  unfold rnd; split_ifs <;> simp

theorem rnd_nonneg {q : ℚ} (h : 0 ≤ q) : 0 ≤ rnd q := by
  have hf : 0 ≤ ⌊q⌋ := Int.floor_nonneg.mpr h
  rcases rnd_cases q with h1 | h1 <;> omega

theorem rnd_le_intCast {q : ℚ} {n : ℤ} (h : q ≤ (n : ℚ)) : rnd q ≤ n := by
  have hfl : ⌊q⌋ ≤ n := by
    have := Int.floor_le_floor h
    simpa using this
  unfold rnd
  split_ifs with h1 h2 h3
  · exact hfl
  · have hne : (⌊q⌋ : ℚ) < q := by
      have : (1:ℚ)/2 ≤ q - ⌊q⌋ := le_of_not_lt h1
      linarith
    have : ⌊q⌋ < n := by
      have : (⌊q⌋ : ℚ) < (n : ℚ) := lt_of_lt_of_le hne h
      exact_mod_cast this
    omega
  · exact hfl
  · have hne : (⌊q⌋ : ℚ) < q := by
      have : (1:ℚ)/2 ≤ q - ⌊q⌋ := le_of_not_lt h1
      linarith
    have : ⌊q⌋ < n := by
      have : (⌊q⌋ : ℚ) < (n : ℚ) := lt_of_lt_of_le hne h
      exact_mod_cast this
    omega

theorem rnd_one_le {q : ℚ} (h : 1/2 < q) : 1 ≤ rnd q := by
  by_cases hf : 1 ≤ ⌊q⌋
  · rcases rnd_cases q with h1 | h1 <;> omega
  · have h0 : 0 ≤ ⌊q⌋ := Int.floor_nonneg.mpr (by linarith)
    have hfz : ⌊q⌋ = 0 := by omega
    unfold rnd
    rw [hfz]
    have hgt : ¬ (q - ((0:ℤ):ℚ) < 1/2) := by push_cast; linarith
    rw [if_neg hgt, if_pos (by push_cast; linarith)]
    omega

theorem roundTo_nonneg {k : ℕ} {q : ℚ} (h : 0 ≤ q) : 0 ≤ roundTo k q := by
  unfold roundTo
  have h1 : 0 ≤ rnd (q * 10 ^ k) := rnd_nonneg (by positivity)
  have h2 : (0:ℚ) ≤ (rnd (q * 10 ^ k) : ℚ) := by exact_mod_cast h1
  positivity

theorem roundTo_le_intCast {k : ℕ} {q : ℚ} {n : ℤ} (h : q ≤ (n : ℚ)) :
    roundTo k q ≤ (n : ℚ) := by
  unfold roundTo
  have hp : (0:ℚ) < 10 ^ k := by positivity
  have h1 : rnd (q * 10 ^ k) ≤ n * 10 ^ k := by
    apply rnd_le_intCast
    push_cast
    exact mul_le_mul_of_nonneg_right h (le_of_lt hp)
  rw [div_le_iff₀ hp]
  calc (rnd (q * 10 ^ k) : ℚ) ≤ ((n * 10 ^ k : ℤ) : ℚ) := by exact_mod_cast h1
    _ = (n : ℚ) * 10 ^ k := by push_cast; ring

theorem round2_nonneg {q : ℚ} (h : 0 ≤ q) : 0 ≤ round2 q := roundTo_nonneg h

theorem round2_le_intCast {q : ℚ} {n : ℤ} (h : q ≤ (n : ℚ)) :
    round2 q ≤ (n : ℚ) := roundTo_le_intCast h

theorem round2_pos {q : ℚ} (h : 1/200 < q) : 0 < round2 q := by
  unfold round2 roundTo
  have h1 : 1 ≤ rnd (q * 10 ^ 2) := rnd_one_le (by norm_num; linarith)
  have h2 : (0:ℚ) < (rnd (q * 10 ^ 2) : ℚ) := by exact_mod_cast h1
  positivity

theorem pyInt_nonneg_eq_floor {q : ℚ} (h : 0 ≤ q) : pyInt q = ⌊q⌋ := by
  unfold pyInt; rw [if_pos h]

/-- Character of a decimal digit. -/
def digitChar (d : ℕ) : Char := Char.ofNat (48 + d)

/-- Numeric value of a digit character (inverse of `digitChar`). -/
def digitVal (c : Char) : ℕ := c.toNat - 48

/-- Decimal rendering of `n` zero-padded on the left to width `w`, as the
Python format `f'{n:0wd}'` produces it (numbers wider than `w` keep all
their digits; `w = 0` gives the plain decimal rendering). -/
def natPadded (w n : ℕ) : List Char :=
  ((Nat.digits 10 n ++ List.replicate (w - (Nat.digits 10 n).length) 0).map
    digitChar).reverse

/-- A prefixed zero-padded sequential identifier, e.g. `PED000042`. -/
def padId (pfx : List Char) (w n : ℕ) : String :=
  String.mk (pfx ++ natPadded w n)

theorem digitVal_digitChar {d : ℕ} (h : d < 10) : digitVal (digitChar d) = d := by
  interval_cases d <;> rfl

theorem map_digitVal_map_digitChar {l : List ℕ} (h : ∀ d ∈ l, d < 10) :
    (l.map digitChar).map digitVal = l := by
  induction l with
  | nil => rfl
  | cons a t ih =>
    simp only [List.map_cons, List.cons.injEq]
    exact ⟨digitVal_digitChar (h a (by simp)), ih fun d hd => h d (by simp [hd])⟩

theorem ofDigits_append_replicate_zero (l : List ℕ) (k : ℕ) :
    Nat.ofDigits 10 (l ++ List.replicate k 0) = Nat.ofDigits 10 l := by
  rw [Nat.ofDigits_append]
  have hz : Nat.ofDigits 10 (List.replicate k (0 : ℕ)) = 0 := by
    induction k with
    | zero => rfl
    | succ j ih => simp [List.replicate_succ, Nat.ofDigits_cons, ih]
  simp [hz]

theorem natPadded_injective (w : ℕ) {m n : ℕ}
    (h : natPadded w m = natPadded w n) : m = n := by
  unfold natPadded at h
  have h1 := congrArg List.reverse h
  simp only [List.reverse_reverse] at h1
  have hm : ∀ d ∈ Nat.digits 10 m ++
      List.replicate (w - (Nat.digits 10 m).length) 0, d < 10 := by
    intro d hd
    rcases List.mem_append.mp hd with hd | hd
    · exact Nat.digits_lt_base (by norm_num) hd
    · simp [List.eq_of_mem_replicate hd]
  have hn : ∀ d ∈ Nat.digits 10 n ++
      List.replicate (w - (Nat.digits 10 n).length) 0, d < 10 := by
    intro d hd
    rcases List.mem_append.mp hd with hd | hd
    · exact Nat.digits_lt_base (by norm_num) hd
    · simp [List.eq_of_mem_replicate hd]
  have h2 : Nat.digits 10 m ++ List.replicate (w - (Nat.digits 10 m).length) 0
      = Nat.digits 10 n ++ List.replicate (w - (Nat.digits 10 n).length) 0 := by
    calc Nat.digits 10 m ++ List.replicate (w - (Nat.digits 10 m).length) 0
        = ((Nat.digits 10 m ++
            List.replicate (w - (Nat.digits 10 m).length) 0).map
              digitChar).map digitVal := (map_digitVal_map_digitChar hm).symm
      _ = ((Nat.digits 10 n ++
            List.replicate (w - (Nat.digits 10 n).length) 0).map
              digitChar).map digitVal := by rw [h1]
      _ = Nat.digits 10 n ++ List.replicate (w - (Nat.digits 10 n).length) 0 :=
          map_digitVal_map_digitChar hn
  have h3 := congrArg (Nat.ofDigits 10) h2
  rw [ofDigits_append_replicate_zero, ofDigits_append_replicate_zero,
    Nat.ofDigits_digits, Nat.ofDigits_digits] at h3
  exact_mod_cast h3

theorem padId_injective (pfx : List Char) (w : ℕ) {m n : ℕ}
    (h : padId pfx w m = padId pfx w n) : m = n := by
  unfold padId at h
  have h1 : pfx ++ natPadded w m = pfx ++ natPadded w n := congrArg String.data h
  exact natPadded_injective w (List.append_cancel_left h1)

/-- Random draws consumed by one iteration of `generate_ecommerce_sales`
(src/tools/InsightEngine.DataGenerator/generate_ecommerce_sales.py), in
source order.  `u_*` fields are the `random.random()` uniform draws gating
optional values; faker-produced strings and formatted dates are supplied
directly. -/
structure EcomDraws where
  order_date : String
  u_delivery : ℚ
  delivery_date : String
  quantity_sample : ℚ
  unit_price_sample : ℚ
  freight_sample : ℚ
  u_discount : ℚ
  discount_sample : ℚ
  cliente_num : ℕ
  produto : String
  status : String
  metodo_pagamento : String
  canal_venda : String
  cidade : String
  estado : String
  u_avaliacao : ℚ
  avaliacao : ℤ
  u_motivo : ℚ
  motivo : String
  u_devolvido : ℚ
  devolvido_sample : ℚ
  categoria_produto : String
  sku_num : ℕ

/-- One row of `generate_ecommerce_sales`:
`quantity = max(1, int(np.random.normal(2, 1.5)))`,
`unit_price = round(np.random.normal(150, 80), 2)`,
`freight = round(np.random.normal(15, 8), 2)`,
`discount = round(random.uniform(0, unit_price*0.3), 2) if random.random() > 0.7 else 0`,
`total = (quantity * unit_price) + freight - discount`, then the dict
literal of the source in its key order. -/
def ecommerceRow (i : ℕ) (d : EcomDraws) : Row :=
  let quantity : ℤ := max 1 (pyInt d.quantity_sample)
  let unit_price : ℚ := round2 d.unit_price_sample
  let freight : ℚ := round2 d.freight_sample
  let discount : ℚ := if d.u_discount > 7/10 then round2 d.discount_sample else 0
  let total : ℚ := (quantity : ℚ) * unit_price + freight - discount
  [("ID_Pedido", Value.vStr (padId "PED".data 6 (i + 1))),
   ("Data_Pedido", Value.vStr d.order_date),
   ("Cliente_ID", Value.vStr (padId "CLI".data 5 d.cliente_num)),
   ("Produto", Value.vStr d.produto),
   ("Quantidade", Value.vInt quantity),
   ("Preco_Unitario", Value.vRat unit_price),
   ("Total", Value.vRat (round2 total)),
   ("Status", Value.vStr d.status),
   ("Metodo_Pagamento", Value.vStr d.metodo_pagamento),
   ("Frete", Value.vRat freight),
   ("Desconto", Value.vRat discount),
   ("Canal_Venda", Value.vStr d.canal_venda),
   ("Cidade", Value.vStr d.cidade),
   ("Estado", Value.vStr d.estado),
   ("Avaliacao", if d.u_avaliacao > 3/10 then Value.vInt d.avaliacao else Value.vNone),
   ("Data_Entrega", if d.u_delivery > 1/10 then Value.vStr d.delivery_date else Value.vNone),
   ("Motivo_Cancelamento", if d.u_motivo > 9/10 then Value.vStr d.motivo else Value.vNone),
   ("Valor_Devolvido",
     Value.vRat (if d.u_devolvido > 95/100 then round2 d.devolvido_sample else 0)),
   ("Categoria_Produto", Value.vStr d.categoria_produto),
   ("SKU", Value.vStr (padId "SKU".data 0 d.sku_num))]

/-- The loop of `generate_ecommerce_sales`: one row per index in
`range(num_rows)`, each from its own draws. -/
def generate_ecommerce_sales (num_rows : ℕ) (ds : ℕ → EcomDraws) : List Row :=
  (List.range num_rows).map fun i => ecommerceRow i (ds i)

/-- The field names of the e-commerce dict literal, in source order. -/
def ecomFields : List String :=
  ["ID_Pedido", "Data_Pedido", "Cliente_ID", "Produto", "Quantidade",
   "Preco_Unitario", "Total", "Status", "Metodo_Pagamento", "Frete",
   "Desconto", "Canal_Venda", "Cidade", "Estado", "Avaliacao",
   "Data_Entrega", "Motivo_Cancelamento", "Valor_Devolvido",
   "Categoria_Produto", "SKU"]

/-- Concrete draws used to evaluate the e-commerce generator at one input. -/
def exEcomDraws : EcomDraws where
  order_date := "2024-01-01"
  u_delivery := 1/2
  delivery_date := "2024-01-05"
  quantity_sample := 2
  unit_price_sample := 150
  freight_sample := 15
  u_discount := 0
  discount_sample := 10
  cliente_num := 42
  produto := "Produto Teste"
  status := "Concluído"
  metodo_pagamento := "PIX"
  canal_venda := "Site"
  cidade := "São Paulo"
  estado := "SP"
  u_avaliacao := 1/2
  avaliacao := 4
  u_motivo := 0
  motivo := "Motivo"
  u_devolvido := 0
  devolvido_sample := 0
  categoria_produto := "Livros"
  sku_num := 12345

/-- C2: in every generated e-commerce row, for every sequence of random
draws, the stored `Total` equals
`Quantidade * Preco_Unitario + Frete - Desconto` rounded to 2 decimal
places, computed from the values stored in that same row. -/
theorem ecommerce_total_consistent (i : ℕ) (d : EcomDraws) :
    getRat (ecommerceRow i d) "Total" =
      round2 (getRat (ecommerceRow i d) "Quantidade" *
        getRat (ecommerceRow i d) "Preco_Unitario" +
        getRat (ecommerceRow i d) "Frete" -
        getRat (ecommerceRow i d) "Desconto") := by
  simp [ecommerceRow, getRat, fieldOf]

/-- C3 (amended): for every row count and draw sequence the e-commerce
generator produces exactly that many records, each with the same fixed
schema of 20 fields (the claim's field count of 19 does not match the
source, which lists 20 keys). -/
theorem ecommerce_count_and_schema (num_rows : ℕ) (ds : ℕ → EcomDraws) :
    (generate_ecommerce_sales num_rows ds).length = num_rows ∧
    ecomFields.length = 20 ∧
    ∀ r ∈ generate_ecommerce_sales num_rows ds, fieldNames r = ecomFields := by
  refine ⟨by simp [generate_ecommerce_sales], rfl, ?_⟩
  intro r hr
  simp only [generate_ecommerce_sales, List.mem_map, List.mem_range] at hr
  obtain ⟨i, -, rfl⟩ := hr
  rfl

/-- Witness for C3's amended theorem at row count 10 and concrete draws. -/
theorem ecommerce_count_and_schema_witness :
    (generate_ecommerce_sales 10 fun _ => exEcomDraws).length = 10 ∧
    fieldNames (ecommerceRow 0 exEcomDraws) = ecomFields := by
  refine ⟨(ecommerce_count_and_schema 10 fun _ => exEcomDraws).1, ?_⟩
  refine (ecommerce_count_and_schema 10 fun _ => exEcomDraws).2.2 _ ?_
  simp only [generate_ecommerce_sales, List.mem_map, List.mem_range]
  exact ⟨0, by norm_num, rfl⟩

/-- C3 counterexample: the first row produced by the e-commerce generator
at row count 10 has 20 fields, not the 19 the claim states. -/
theorem ecommerce_schema_not_19 :
    ((generate_ecommerce_sales 10 fun _ => exEcomDraws).map
      fun r => (fieldNames r).length)[0]? = some 20 ∧ (20 : ℕ) ≠ 19 := by
  constructor
  · rfl
  · decide

/-- Random draws consumed by one iteration of `generate_logistics_data`
(src/tools/InsightEngine.DataGenerator/generate_logistics.py), in source
order; dates are supplied already formatted. -/
structure LogisticsDraws where
  departure_date : String
  expected_date : String
  u_actual : ℚ
  actual_date : String
  pedido_num : ℕ
  transportadora : String
  status : String
  peso_sample : ℚ
  volume_sample : ℚ
  frete_sample : ℚ
  destinatario : String
  endereco : String
  cidade : String
  estado : String
  cep : String
  rastreamento_num : ℕ
  u_motivo : ℚ
  motivo : String
  tentativas : ℤ
  responsavel : String

/-- One row of `generate_logistics_data`: `Peso_Kg`, `Volume_M3` and
`Valor_Frete` are normal samples rounded to 2, 3 and 2 decimal places
respectively, stored without clamping. -/
def logisticsRow (i : ℕ) (d : LogisticsDraws) : Row :=
  [("ID_Entrega", Value.vStr (padId "ENT".data 6 (i + 1))),
   ("Pedido_ID", Value.vStr (padId "PED".data 6 d.pedido_num)),
   ("Transportadora", Value.vStr d.transportadora),
   ("Data_Saida", Value.vStr d.departure_date),
   ("Data_Prevista", Value.vStr d.expected_date),
   ("Data_Entrega", if d.u_actual > 1/10 then Value.vStr d.actual_date else Value.vNone),
   ("Status", Value.vStr d.status),
   ("Peso_Kg", Value.vRat (round2 d.peso_sample)),
   ("Volume_M3", Value.vRat (roundTo 3 d.volume_sample)),
   ("Valor_Frete", Value.vRat (round2 d.frete_sample)),
   ("Destinatario", Value.vStr d.destinatario),
   ("Endereco", Value.vStr d.endereco),
   ("Cidade", Value.vStr d.cidade),
   ("Estado", Value.vStr d.estado),
   ("CEP", Value.vStr d.cep),
   ("Rastreamento", Value.vStr (padId "BR".data 0 d.rastreamento_num)),
   ("Motivo_Atraso", if d.u_motivo > 85/100 then Value.vStr d.motivo else Value.vNone),
   ("Tentativas_Entrega", Value.vInt d.tentativas),
   ("Responsavel", Value.vStr d.responsavel)]

/-- The loop of `generate_logistics_data`. -/
def generate_logistics_data (num_rows : ℕ) (ds : ℕ → LogisticsDraws) : List Row :=
  (List.range num_rows).map fun i => logisticsRow i (ds i)

/-- Concrete logistics draws with a negative weight sample. -/
def negLogisticsDraws : LogisticsDraws where
  departure_date := "2024-02-01"
  expected_date := "2024-02-05"
  u_actual := 1/2
  actual_date := "2024-02-06"
  pedido_num := 7
  transportadora := "Correios"
  status := "Entregue"
  peso_sample := -2
  volume_sample := 1/20
  frete_sample := 25
  destinatario := "Destinatário"
  endereco := "Rua A"
  cidade := "Recife"
  estado := "PE"
  cep := "50000-000"
  rastreamento_num := 123456789
  u_motivo := 0
  motivo := "Atraso"
  tentativas := 1
  responsavel := "Responsável"

/-- Concrete e-commerce draws with a negative price sample and a negative
quantity sample. -/
def negEcomDraws : EcomDraws :=
  { exEcomDraws with unit_price_sample := -5, quantity_sample := -3 }

/-- C6 (amended): the normally-sampled fields `Preco_Unitario` and `Frete`
(e-commerce) and `Peso_Kg`, `Volume_M3`, `Valor_Frete` (logistics) store
the raw sample up to rounding with no clamping, and a negative draw yields
a negative stored value; but e-commerce `Quantidade` is clamped to
`max(1, int(sample))`, hence is at least 1 and never negative. -/
theorem normal_fields_raw_except_quantity :
    (∀ (i : ℕ) (d : EcomDraws),
      getRat (ecommerceRow i d) "Preco_Unitario" = round2 d.unit_price_sample ∧
      getRat (ecommerceRow i d) "Frete" = round2 d.freight_sample ∧
      fieldOf (ecommerceRow i d) "Quantidade" =
        Value.vInt (max 1 (pyInt d.quantity_sample)) ∧
      1 ≤ getRat (ecommerceRow i d) "Quantidade") ∧
    (∀ (i : ℕ) (d : LogisticsDraws),
      getRat (logisticsRow i d) "Peso_Kg" = round2 d.peso_sample ∧
      getRat (logisticsRow i d) "Volume_M3" = roundTo 3 d.volume_sample ∧
      getRat (logisticsRow i d) "Valor_Frete" = round2 d.frete_sample) ∧
    getRat (ecommerceRow 0 negEcomDraws) "Preco_Unitario" < 0 ∧
    getRat (logisticsRow 0 negLogisticsDraws) "Peso_Kg" < 0 := by
  refine ⟨fun i d => ⟨?_, ?_, ?_, ?_⟩, fun i d => ⟨?_, ?_, ?_⟩, ?_, ?_⟩
  · simp [ecommerceRow, getRat, fieldOf]
  · simp [ecommerceRow, getRat, fieldOf]
  · simp [ecommerceRow, fieldOf]
  · have h : getRat (ecommerceRow i d) "Quantidade" =
        ((max 1 (pyInt d.quantity_sample) : ℤ) : ℚ) := by
      simp [ecommerceRow, getRat, fieldOf]
    rw [h]
    have : (1 : ℤ) ≤ max 1 (pyInt d.quantity_sample) := le_max_left _ _
    exact_mod_cast this
  · simp [logisticsRow, getRat, fieldOf]
  · simp [logisticsRow, getRat, fieldOf]
  · simp [logisticsRow, getRat, fieldOf]
  · have h : getRat (ecommerceRow 0 negEcomDraws) "Preco_Unitario" =
        round2 (-5) := by
      simp [ecommerceRow, getRat, fieldOf, negEcomDraws, exEcomDraws]
    rw [h]
    norm_num [round2, roundTo, rnd]
  · have h : getRat (logisticsRow 0 negLogisticsDraws) "Peso_Kg" =
        round2 (-2) := by
      simp [logisticsRow, getRat, fieldOf, negLogisticsDraws]
    rw [h]
    norm_num [round2, roundTo, rnd]

/-- C6 counterexample: with a quantity sample of -3 the stored e-commerce
`Quantidade` is 1 — clamped, not the raw truncated sample -3, and not
negative. -/
theorem quantity_clamped_counterexample :
    fieldOf (ecommerceRow 0 negEcomDraws) "Quantidade" = Value.vInt 1 ∧
    pyInt (-3) = -3 ∧ (1 : ℤ) ≠ -3 := by
  refine ⟨?_, ?_, by decide⟩
  · have : pyInt (negEcomDraws.quantity_sample) = -3 := by
      norm_num [negEcomDraws, exEcomDraws, pyInt]
    simp [ecommerceRow, fieldOf, this]
  · norm_num [pyInt]

/-- Random draws consumed by one iteration of `generate_cashflow_data`
(src/tools/InsightEngine.DataGenerator/generate_cashflow.py), in source
order.  `tipo` is the weighted categorical draw over
`['Entrada', 'Saída']`; `entrada_sample` and `saida_sample` are the two
log-normal samples of the branch (only the branch taken is consumed by the
source, so providing both is an oracle superset). -/
structure CashDraws where
  transaction_date : String
  tipo : String
  entrada_sample : ℚ
  saida_sample : ℚ
  descricao : String
  categoria : String
  subcategoria : String
  conta : String
  responsavel : String
  comprovante_num : ℕ
  centro_custo : String
  u_projeto : ℚ
  projeto : String
  moeda : String
  u_taxa : ℚ
  taxa_sample : ℚ
  previsao_realizado : String
  u_obs : ℚ
  observacoes : String

/-- The signed transaction of one cashflow iteration:
`value = round(np.random.lognormal(..), 2)` on the branch taken. -/
def cashflowValue (d : CashDraws) : ℚ :=
  if d.tipo = "Entrada" then round2 d.entrada_sample else round2 d.saida_sample

/-- The updated running balance of one cashflow iteration:
`new_balance = current_balance + value` for `Entrada`,
`current_balance - value` otherwise. -/
def cashflowNewBalance (bal : ℚ) (d : CashDraws) : ℚ :=
  if d.tipo = "Entrada" then bal + round2 d.entrada_sample
  else bal - round2 d.saida_sample

/-- One row of `generate_cashflow_data`, from the running balance `bal`
read at the start of the iteration. -/
def cashflowRow (_i : ℕ) (bal : ℚ) (d : CashDraws) : Row :=
  [("Data", Value.vStr d.transaction_date),
   ("Tipo", Value.vStr d.tipo),
   ("Descricao", Value.vStr d.descricao),
   ("Valor", Value.vRat (cashflowValue d)),
   ("Categoria", Value.vStr d.categoria),
   ("Subcategoria", Value.vStr d.subcategoria),
   ("Conta", Value.vStr d.conta),
   ("Saldo_Anterior", Value.vRat (round2 bal)),
   ("Saldo_Apos", Value.vRat (round2 (cashflowNewBalance bal d))),
   ("Responsavel", Value.vStr d.responsavel),
   ("Comprovante", Value.vStr (padId "COMP".data 0 d.comprovante_num)),
   ("Centro_Custo", Value.vStr d.centro_custo),
   ("Projeto", if d.u_projeto > 7/10 then Value.vStr d.projeto else Value.vNone),
   ("Moeda", Value.vStr d.moeda),
   ("Taxa_Cambio",
     Value.vRat (if d.u_taxa > 9/10 then roundTo 4 d.taxa_sample else 1)),
   ("Previsao_Realizado", Value.vStr d.previsao_realizado),
   ("Observacoes", if d.u_obs > 8/10 then Value.vStr d.observacoes else Value.vNone)]

/-- The cashflow loop: `k` remaining iterations, current index `i`,
running balance `bal`.  The unrounded `new_balance` is threaded to the
next iteration, exactly as `current_balance = new_balance` in the source. -/
def cashflowAux (ds : ℕ → CashDraws) : ℕ → ℕ → ℚ → List Row
  | 0, _, _ => []
  | k + 1, i, bal =>
    cashflowRow i bal (ds i) ::
      cashflowAux ds k (i + 1) (cashflowNewBalance bal (ds i))

/-- The generator `generate_cashflow_data`: the loop started at index 0
with the initial balance 100000.0. -/
def generate_cashflow_data (num_rows : ℕ) (ds : ℕ → CashDraws) : List Row :=
  cashflowAux ds num_rows 0 100000

/-- The running balance after `j` iterations starting from index `i` and
balance `bal`. -/
def cashflowBalance (ds : ℕ → CashDraws) : ℕ → ℕ → ℚ → ℚ
  | 0, _, bal => bal
  | j + 1, i, bal => cashflowBalance ds j (i + 1) (cashflowNewBalance bal (ds i))

theorem cashflowBalance_succ (ds : ℕ → CashDraws) (j i : ℕ) (bal : ℚ) :
    cashflowBalance ds (j + 1) i bal =
      cashflowNewBalance (cashflowBalance ds j i bal) (ds (i + j)) := by
  induction j generalizing i bal with
  | zero => simp [cashflowBalance]
  | succ j ih =>
    show cashflowBalance ds (j + 1) (i + 1) (cashflowNewBalance bal (ds i)) = _
    rw [ih]
    have : i + 1 + j = i + (j + 1) := by omega
    rw [this]
    rfl

theorem cashflowAux_getElem (ds : ℕ → CashDraws) (k i : ℕ) (bal : ℚ) (j : ℕ)
    (h : j < k) :
    (cashflowAux ds k i bal)[j]? =
      some (cashflowRow (i + j) (cashflowBalance ds j i bal) (ds (i + j))) := by
  induction j generalizing k i bal with
  | zero =>
    obtain ⟨k', rfl⟩ : ∃ k', k = k' + 1 := ⟨k - 1, by omega⟩
    simp [cashflowAux, cashflowBalance]
  | succ j ih =>
    obtain ⟨k', rfl⟩ : ∃ k', k = k' + 1 := ⟨k - 1, by omega⟩
    have step : cashflowAux ds (k' + 1) i bal = cashflowRow i bal (ds i) ::
        cashflowAux ds k' (i + 1) (cashflowNewBalance bal (ds i)) := rfl
    rw [step, List.getElem?_cons_succ,
      ih k' (i + 1) (cashflowNewBalance bal (ds i)) (by omega)]
    have harith : i + 1 + j = i + (j + 1) := by omega
    rw [harith]
    rfl

/-- C1: in the cashflow generator, for every row count and every sequence
of random draws, each row's `Saldo_Anterior` equals the previous row's
`Saldo_Apos` exactly: the unrounded running balance is threaded forward,
and both fields round that same balance. -/
theorem cashflow_prefix_consistent (num_rows : ℕ) (ds : ℕ → CashDraws)
    (i : ℕ) (h : i + 1 < num_rows) :
    ((generate_cashflow_data num_rows ds)[i + 1]?).map
        (fun r => getRat r "Saldo_Anterior") =
      ((generate_cashflow_data num_rows ds)[i]?).map
        (fun r => getRat r "Saldo_Apos") := by
  unfold generate_cashflow_data
  rw [cashflowAux_getElem ds num_rows 0 100000 (i + 1) h,
    cashflowAux_getElem ds num_rows 0 100000 i (by omega)]
  have ha : ∀ (j : ℕ) (bal : ℚ) (d : CashDraws),
      getRat (cashflowRow j bal d) "Saldo_Anterior" = round2 bal := by
    intro j bal d
    simp [cashflowRow, getRat, fieldOf]
  have hb : ∀ (j : ℕ) (bal : ℚ) (d : CashDraws),
      getRat (cashflowRow j bal d) "Saldo_Apos" =
        round2 (cashflowNewBalance bal d) := by
    intro j bal d
    simp [cashflowRow, getRat, fieldOf]
  simp only [Option.map_some', ha, hb, cashflowBalance_succ]

/-- Concrete cashflow draws: an `Entrada` of 10. -/
def exCashDraws : CashDraws where
  transaction_date := "2024-03-01"
  tipo := "Entrada"
  entrada_sample := 10
  saida_sample := 5
  descricao := "Venda"
  categoria := "Vendas"
  subcategoria := "varejo"
  conta := "Caixa"
  responsavel := "Ana"
  comprovante_num := 100000
  centro_custo := "centro"
  u_projeto := 0
  projeto := "Projeto"
  moeda := "BRL"
  u_taxa := 0
  taxa_sample := 1
  previsao_realizado := "Realizado"
  u_obs := 0
  observacoes := "Obs"

/-- Witness for C1 at row count 2 and concrete draws. -/
theorem cashflow_prefix_consistent_witness :
    ((generate_cashflow_data 2 fun _ => exCashDraws)[1]?).map
        (fun r => getRat r "Saldo_Anterior") =
      ((generate_cashflow_data 2 fun _ => exCashDraws)[0]?).map
        (fun r => getRat r "Saldo_Apos") :=
  cashflow_prefix_consistent 2 (fun _ => exCashDraws) 0 (by norm_num)

/-- Random draws consumed by one iteration of `generate_hr_data`
(src/tools/InsightEngine.DataGenerator/generate_hr.py), in source order. -/
structure HRDraws where
  admission_date : String
  idade : ℤ
  salario_sample : ℚ
  nome : String
  cpf : String
  cargo : String
  departamento : String
  status : String
  u_demissao : ℚ
  demissao_date : String
  genero : String
  escolaridade : String
  estado_civil : String
  dependentes : ℤ
  u_horas : ℚ
  horas_extras : ℤ
  faltas : ℤ
  avaliacao_sample : ℚ
  beneficios : String
  cidade : String
  estado : String

/-- One row of `generate_hr_data`:
`salary = round(np.random.lognormal(9, 0.8), 2)`, then the dict literal of
the source in its key order. -/
def hrRow (i : ℕ) (d : HRDraws) : Row :=
  [("ID_Funcionario", Value.vStr (padId "FUN".data 5 (i + 1))),
   ("Nome", Value.vStr d.nome),
   ("CPF", Value.vStr d.cpf),
   ("Data_Admissao", Value.vStr d.admission_date),
   ("Cargo", Value.vStr d.cargo),
   ("Salario", Value.vRat (round2 d.salario_sample)),
   ("Departamento", Value.vStr d.departamento),
   ("Status", Value.vStr d.status),
   ("Data_Demissao",
     if d.u_demissao > 8/10 then Value.vStr d.demissao_date else Value.vNone),
   ("Idade", Value.vInt d.idade),
   ("Genero", Value.vStr d.genero),
   ("Escolaridade", Value.vStr d.escolaridade),
   ("Estado_Civil", Value.vStr d.estado_civil),
   ("Dependentes", Value.vInt d.dependentes),
   ("Horas_Extras", Value.vInt (if d.u_horas > 6/10 then d.horas_extras else 0)),
   ("Faltas", Value.vInt d.faltas),
   ("Avaliacao", Value.vRat (roundTo 1 d.avaliacao_sample)),
   ("Beneficios", Value.vStr d.beneficios),
   ("Cidade", Value.vStr d.cidade),
   ("Estado", Value.vStr d.estado)]

/-- The loop of `generate_hr_data`. -/
def generate_hr_data (num_rows : ℕ) (ds : ℕ → HRDraws) : List Row :=
  (List.range num_rows).map fun i => hrRow i (ds i)

/-- Concrete HR draws. -/
def exHRDraws : HRDraws where
  admission_date := "2020-06-01"
  idade := 30
  salario_sample := 3000
  nome := "João"
  cpf := "000.000.000-00"
  cargo := "Analista"
  departamento := "TI"
  status := "Ativo"
  u_demissao := 0
  demissao_date := "2030-01-01"
  genero := "Outro"
  escolaridade := "Superior"
  estado_civil := "Solteiro"
  dependentes := 1
  u_horas := 0
  horas_extras := 0
  faltas := 2
  avaliacao_sample := 4
  beneficios := "Vale Alimentação"
  cidade := "Curitiba"
  estado := "PR"

/-- Concrete cashflow draws whose log-normal sample is the tiny positive
value 1/250 = 0.004, which rounds to 0.00. -/
def tinyCashDraws : CashDraws :=
  { exCashDraws with entrada_sample := 1/250 }

/-- C7 counterexample: a strictly positive log-normal sample of
1/250 = 0.004 is stored as `Valor = 0.00` after the 2-decimal currency
rounding, so the stored field is not strictly positive. -/
theorem lognormal_stored_zero_counterexample :
    (0 : ℚ) < tinyCashDraws.entrada_sample ∧
    ((generate_cashflow_data 1 fun _ => tinyCashDraws)[0]?).map
        (fun r => getRat r "Valor") = some 0 := by
  constructor
  · norm_num [tinyCashDraws, exCashDraws]
  · have h : (generate_cashflow_data 1 fun _ => tinyCashDraws)[0]? =
        some (cashflowRow 0 100000 tinyCashDraws) := rfl
    rw [h]
    have hv : getRat (cashflowRow 0 100000 tinyCashDraws) "Valor" =
        cashflowValue tinyCashDraws := by
      simp [cashflowRow, getRat, fieldOf]
    simp only [Option.map_some', hv]
    have ht : cashflowValue tinyCashDraws = round2 (1/250) := by
      norm_num [cashflowValue, tinyCashDraws, exCashDraws]
    rw [ht]
    norm_num [round2, roundTo, rnd]

/-- C7 (amended): the raw log-normal samples are strictly positive, and
the stored 2-decimal currency fields (cashflow `Valor`, HR `Salario`) are
nonnegative; they are strictly positive whenever the raw sample exceeds
1/200 = 0.005, but a sample at most 0.005 can be stored as 0.00. -/
theorem lognormal_stored_nonneg (i : ℕ) (bal : ℚ) (cd : CashDraws)
    (hd : HRDraws) (h1 : 0 < cd.entrada_sample) (h2 : 0 < cd.saida_sample)
    (h3 : 0 < hd.salario_sample) :
    (0 ≤ getRat (cashflowRow i bal cd) "Valor" ∧
      0 ≤ getRat (hrRow i hd) "Salario") ∧
    ((1/200 < cd.entrada_sample ∧ 1/200 < cd.saida_sample) →
      0 < getRat (cashflowRow i bal cd) "Valor") ∧
    (1/200 < hd.salario_sample → 0 < getRat (hrRow i hd) "Salario") := by
  have hv : getRat (cashflowRow i bal cd) "Valor" = cashflowValue cd := by
    simp [cashflowRow, getRat, fieldOf]
  have hs : getRat (hrRow i hd) "Salario" = round2 hd.salario_sample := by
    simp [hrRow, getRat, fieldOf]
  rw [hv, hs]
  refine ⟨⟨?_, round2_nonneg (le_of_lt h3)⟩, ?_, fun h => round2_pos h⟩
  · unfold cashflowValue
    split_ifs
    · exact round2_nonneg (le_of_lt h1)
    · exact round2_nonneg (le_of_lt h2)
  · rintro ⟨ha, hb⟩
    unfold cashflowValue
    split_ifs
    · exact round2_pos ha
    · exact round2_pos hb

/-- Witness for C7's amended theorem at concrete draws. -/
theorem lognormal_stored_nonneg_witness :
    (0 ≤ getRat (cashflowRow 0 100000 exCashDraws) "Valor" ∧
      0 ≤ getRat (hrRow 0 exHRDraws) "Salario") ∧
    0 < getRat (cashflowRow 0 100000 exCashDraws) "Valor" ∧
    0 < getRat (hrRow 0 exHRDraws) "Salario" := by
  have h := lognormal_stored_nonneg 0 100000 exCashDraws exHRDraws
    (by norm_num [exCashDraws]) (by norm_num [exCashDraws])
    (by norm_num [exHRDraws])
  exact ⟨h.1, h.2.1 (by norm_num [exCashDraws]), h.2.2 (by norm_num [exHRDraws])⟩

/-- Random draws consumed by one iteration of `generate_customers_data`
(src/tools/InsightEngine.DataGenerator/generate_customers.py), in source
order. -/
structure CustomerDraws where
  registration_date : String
  u_last_purchase : ℚ
  last_purchase_date : String
  total_sample : ℚ
  num_orders_draw : ℤ
  nome : String
  u_cpf : ℚ
  cpf : String
  cnpj : String
  email : String
  telefone : String
  cidade : String
  estado : String
  cep : String
  idade : ℤ
  genero : String
  renda_sample : ℚ
  score_credito : ℤ
  status : String
  preferencias : String
  canal_aquisicao : String

/-- One row of `generate_customers_data`:
`total_purchases = round(np.random.lognormal(7, 1.5), 2) if last_purchase else 0`,
`num_orders = random.randint(1, 50) if total_purchases > 0 else 0`. -/
def customersRow (i : ℕ) (d : CustomerDraws) : Row :=
  let total_purchases : ℚ :=
    if d.u_last_purchase > 1/5 then round2 d.total_sample else 0
  let num_orders : ℤ := if total_purchases > 0 then d.num_orders_draw else 0
  [("ID_Cliente", Value.vStr (padId "CLI".data 6 (i + 1))),
   ("Nome", Value.vStr d.nome),
   ("CPF_CNPJ", Value.vStr (if d.u_cpf > 1/10 then d.cpf else d.cnpj)),
   ("Email", Value.vStr d.email),
   ("Telefone", Value.vStr d.telefone),
   ("Data_Cadastro", Value.vStr d.registration_date),
   ("Data_Ultima_Compra",
     if d.u_last_purchase > 1/5 then Value.vStr d.last_purchase_date
     else Value.vNone),
   ("Valor_Total_Compras", Value.vRat total_purchases),
   ("Numero_Pedidos", Value.vInt num_orders),
   ("Cidade", Value.vStr d.cidade),
   ("Estado", Value.vStr d.estado),
   ("CEP", Value.vStr d.cep),
   ("Idade", Value.vInt d.idade),
   ("Genero", Value.vStr d.genero),
   ("Renda_Estimada", Value.vRat (round2 d.renda_sample)),
   ("Score_Credito", Value.vInt d.score_credito),
   ("Status", Value.vStr d.status),
   ("Preferencias", Value.vStr d.preferencias),
   ("Canal_Aquisicao", Value.vStr d.canal_aquisicao)]

/-- The loop of `generate_customers_data`. -/
def generate_customers_data (num_rows : ℕ) (ds : ℕ → CustomerDraws) : List Row :=
  (List.range num_rows).map fun i => customersRow i (ds i)

/-- Concrete customer draws. -/
def exCustomerDraws : CustomerDraws where
  registration_date := "2021-01-01"
  u_last_purchase := 1/2
  last_purchase_date := "2022-01-01"
  total_sample := 500
  num_orders_draw := 3
  nome := "Maria"
  u_cpf := 1/2
  cpf := "111.111.111-11"
  cnpj := "00.000.000/0001-00"
  email := "maria@example.com"
  telefone := "(11) 99999-9999"
  cidade := "Salvador"
  estado := "BA"
  cep := "40000-000"
  idade := 35
  genero := "Feminino"
  renda_sample := 6000
  score_credito := 700
  status := "Ativo"
  preferencias := "Livros"
  canal_aquisicao := "Site"

/-- C8: the primary sequential identifiers (e-commerce `ID_Pedido`, HR
`ID_Funcionario`, customers `ID_Cliente`) are the domain prefix followed
by the 1-based row index zero-padded to a fixed width, and rows at
distinct indices of one run carry pairwise distinct identifiers. -/
theorem sequential_ids_distinct (i j : ℕ) (d d' : EcomDraws) (h h' : HRDraws)
    (c c' : CustomerDraws) (hij : i ≠ j) :
    fieldOf (ecommerceRow i d) "ID_Pedido" =
      Value.vStr (padId "PED".data 6 (i + 1)) ∧
    fieldOf (hrRow i h) "ID_Funcionario" =
      Value.vStr (padId "FUN".data 5 (i + 1)) ∧
    fieldOf (customersRow i c) "ID_Cliente" =
      Value.vStr (padId "CLI".data 6 (i + 1)) ∧
    fieldOf (ecommerceRow i d) "ID_Pedido" ≠
      fieldOf (ecommerceRow j d') "ID_Pedido" ∧
    fieldOf (hrRow i h) "ID_Funcionario" ≠
      fieldOf (hrRow j h') "ID_Funcionario" ∧
    fieldOf (customersRow i c) "ID_Cliente" ≠
      fieldOf (customersRow j c') "ID_Cliente" := by
  have he : ∀ (k : ℕ) (e : EcomDraws), fieldOf (ecommerceRow k e) "ID_Pedido" =
      Value.vStr (padId "PED".data 6 (k + 1)) := by
    intro k e; simp [ecommerceRow, fieldOf]
  have hh : ∀ (k : ℕ) (e : HRDraws), fieldOf (hrRow k e) "ID_Funcionario" =
      Value.vStr (padId "FUN".data 5 (k + 1)) := by
    intro k e; simp [hrRow, fieldOf]
  have hc : ∀ (k : ℕ) (e : CustomerDraws),
      fieldOf (customersRow k e) "ID_Cliente" =
        Value.vStr (padId "CLI".data 6 (k + 1)) := by
    intro k e; simp [customersRow, fieldOf]
  refine ⟨he i d, hh i h, hc i c, ?_, ?_, ?_⟩
  · rw [he i d, he j d']
    intro hcontra
    apply hij
    have := padId_injective "PED".data 6 (Value.vStr.inj hcontra)
    omega
  · rw [hh i h, hh j h']
    intro hcontra
    apply hij
    have := padId_injective "FUN".data 5 (Value.vStr.inj hcontra)
    omega
  · rw [hc i c, hc j c']
    intro hcontra
    apply hij
    have := padId_injective "CLI".data 6 (Value.vStr.inj hcontra)
    omega

/-- Witness for C8 at indices 0 and 1 with concrete draws. -/
theorem sequential_ids_distinct_witness :
    fieldOf (ecommerceRow 0 exEcomDraws) "ID_Pedido" =
      Value.vStr (padId "PED".data 6 1) ∧
    fieldOf (ecommerceRow 0 exEcomDraws) "ID_Pedido" ≠
      fieldOf (ecommerceRow 1 exEcomDraws) "ID_Pedido" ∧
    fieldOf (hrRow 0 exHRDraws) "ID_Funcionario" ≠
      fieldOf (hrRow 1 exHRDraws) "ID_Funcionario" ∧
    fieldOf (customersRow 0 exCustomerDraws) "ID_Cliente" ≠
      fieldOf (customersRow 1 exCustomerDraws) "ID_Cliente" := by
  have h := sequential_ids_distinct 0 1 exEcomDraws exEcomDraws exHRDraws
    exHRDraws exCustomerDraws exCustomerDraws (by decide)
  exact ⟨h.1, h.2.2.2.1, h.2.2.2.2.1, h.2.2.2.2.2⟩

/-- Random draws consumed by one iteration of `generate_marketing_data`
(src/tools/InsightEngine.DataGenerator/generate_marketing.py), in source
order. -/
structure MarketingDraws where
  start_date : String
  end_date : String
  investment_sample : ℚ
  impressions_sample : ℚ
  clicks_beta : ℚ
  conversions_beta : ℚ
  nome_campanha : String
  canal : String
  publico_num : ℕ
  segmento : String
  status : String
  responsavel : String
  objetivo : String
  engajamento : ℕ
  bounce : ℕ

/-- One row of `generate_marketing_data`:
`investment = round(np.random.lognormal(7, 1.2), 2)`,
`impressions = int(np.random.lognormal(12, 1.5))`,
`clicks = int(impressions * np.random.beta(2, 20))`,
`conversions = int(clicks * np.random.beta(1, 10))`; CTR, CPC and CPA are
guarded by `if denominator > 0 else 0`, while
`roi = (conversions * 50 - investment) / investment * 100` divides by
`investment` unconditionally — a float division by zero yields a
non-finite value under numpy, modeled as `vNaN` (rounding keeps it
non-finite). -/
def marketingRow (i : ℕ) (d : MarketingDraws) : Row :=
  let investment : ℚ := round2 d.investment_sample
  let impressions : ℤ := pyInt d.impressions_sample
  let clicks : ℤ := pyInt ((impressions : ℚ) * d.clicks_beta)
  let conversions : ℤ := pyInt ((clicks : ℚ) * d.conversions_beta)
  let ctr : ℚ :=
    if impressions > 0 then ((clicks : ℚ) / (impressions : ℚ)) * 100 else 0
  let cpc : ℚ := if clicks > 0 then investment / (clicks : ℚ) else 0
  let cpa : ℚ := if conversions > 0 then investment / (conversions : ℚ) else 0
  let roi : Value :=
    if investment = 0 then Value.vNaN
    else Value.vRat
      (round2 (((conversions : ℚ) * 50 - investment) / investment * 100))
  [("ID_Campanha", Value.vStr (padId "CAMP".data 5 (i + 1))),
   ("Nome_Campanha", Value.vStr d.nome_campanha),
   ("Data_Inicio", Value.vStr d.start_date),
   ("Data_Fim", Value.vStr d.end_date),
   ("Canal", Value.vStr d.canal),
   ("Investimento", Value.vRat investment),
   ("Impressoes", Value.vInt impressions),
   ("Cliques", Value.vInt clicks),
   ("Conversoes", Value.vInt conversions),
   ("CTR", Value.vRat (round2 ctr)),
   ("CPC", Value.vRat (round2 cpc)),
   ("CPA", Value.vRat (round2 cpa)),
   ("ROI", roi),
   ("Publico_Alvo", Value.vStr (String.mk (natPadded 0 d.publico_num) ++ " pessoas")),
   ("Segmento", Value.vStr d.segmento),
   ("Status", Value.vStr d.status),
   ("Responsavel", Value.vStr d.responsavel),
   ("Objetivo", Value.vStr d.objetivo),
   ("Metricas_Adicionais", Value.vStr ("Engajamento: " ++
     String.mk (natPadded 0 d.engajamento) ++ "%, Bounce Rate: " ++
     String.mk (natPadded 0 d.bounce) ++ "%"))]

/-- The loop of `generate_marketing_data`. -/
def generate_marketing_data (num_rows : ℕ) (ds : ℕ → MarketingDraws) : List Row :=
  (List.range num_rows).map fun i => marketingRow i (ds i)

/-- Random draws consumed by one iteration of `generate_production_data`
(src/tools/InsightEngine.DataGenerator/generate_production.py), in source
order.  `planejada` comes from `random.randint(100, 10000)` and
`produced_beta` from `np.random.beta(8, 2)`; the sampler contracts
(`100 ≤ planejada`, `0 ≤ produced_beta ≤ 1`) are hypotheses of the
theorems that need them. -/
structure ProductionDraws where
  start_date : String
  planejada : ℤ
  produced_beta : ℚ
  production_time : ℤ
  produto : String
  end_date : String
  maquina : String
  operador : String
  defeitos : ℤ
  custo_mp_sample : ℚ
  custo_mo_sample : ℚ
  status : String
  linha_num : ℕ
  turno : String
  qualidade : String
  u_obs : ℚ
  observacoes : String

/-- One row of `generate_production_data`:
`produced_qty = int(planned_qty * np.random.beta(8, 2))`,
`efficiency = (produced_qty / planned_qty) * 100`. -/
def productionRow (i : ℕ) (d : ProductionDraws) : Row :=
  let produced : ℤ := pyInt ((d.planejada : ℚ) * d.produced_beta)
  let efficiency : ℚ := ((produced : ℚ) / (d.planejada : ℚ)) * 100
  [("ID_Ordem", Value.vStr (padId "ORD".data 6 (i + 1))),
   ("Produto", Value.vStr d.produto),
   ("Quantidade_Planejada", Value.vInt d.planejada),
   ("Quantidade_Produzida", Value.vInt produced),
   ("Data_Inicio", Value.vStr d.start_date),
   ("Data_Fim", Value.vStr d.end_date),
   ("Maquina", Value.vStr d.maquina),
   ("Operador", Value.vStr d.operador),
   ("Tempo_Producao_Min", Value.vInt d.production_time),
   ("Eficiencia", Value.vRat (round2 efficiency)),
   ("Defeitos", Value.vInt d.defeitos),
   ("Custo_Materia_Prima", Value.vRat (round2 d.custo_mp_sample)),
   ("Custo_Mao_Obra", Value.vRat (round2 d.custo_mo_sample)),
   ("Status", Value.vStr d.status),
   ("Linha_Producao", Value.vStr ("Linha " ++ String.mk (natPadded 0 d.linha_num))),
   ("Turno", Value.vStr d.turno),
   ("Qualidade", Value.vStr d.qualidade),
   ("Observacoes", if d.u_obs > 8/10 then Value.vStr d.observacoes else Value.vNone)]

/-- The loop of `generate_production_data`. -/
def generate_production_data (num_rows : ℕ) (ds : ℕ → ProductionDraws) : List Row :=
  (List.range num_rows).map fun i => productionRow i (ds i)

theorem round2_zero : round2 0 = 0 := by
  norm_num [round2, roundTo, rnd]

/-- Concrete marketing draws on which every ratio denominator is zero: the
impressions sample truncates to 0 (hence clicks and conversions are 0) and
the investment sample 1/250 rounds to 0.00. -/
def zeroMarketingDraws : MarketingDraws where
  start_date := "2024-01-01"
  end_date := "2024-02-01"
  investment_sample := 1/250
  impressions_sample := 1/2
  clicks_beta := 1/10
  conversions_beta := 1/10
  nome_campanha := "Campanha"
  canal := "Facebook"
  publico_num := 10000
  segmento := "25-34"
  status := "Ativa"
  responsavel := "Pedro"
  objetivo := "Retenção"
  engajamento := 5
  bounce := 40

/-- Concrete production draws. -/
def exProductionDraws : ProductionDraws where
  start_date := "2024-04-01 08:00"
  planejada := 200
  produced_beta := 1/2
  production_time := 60
  produto := "Peça"
  end_date := "2024-04-01 09:00"
  maquina := "Máquina A"
  operador := "Oscar"
  defeitos := 2
  custo_mp_sample := 100
  custo_mo_sample := 50
  status := "Concluída"
  linha_num := 3
  turno := "Manhã"
  qualidade := "A"
  u_obs := 0
  observacoes := "Obs"

/-- C4 (amended): marketing's CTR, CPC and CPA are guarded against
division by zero and store 0 when their sampled denominator is 0, and
production's `Eficiencia` denominator `Quantidade_Planejada` is drawn from
`randint(100, 10000)` and is never 0; but ROI is computed with no guard —
it divides by `Investimento` unconditionally, and when the rounded
investment is 0 the stored ROI is a non-finite float value, not 0. -/
theorem ratio_zero_guards (i : ℕ) (d : MarketingDraws) (pd : ProductionDraws) :
    (getRat (marketingRow i d) "Impressoes" = 0 →
      getRat (marketingRow i d) "CTR" = 0) ∧
    (getRat (marketingRow i d) "Cliques" = 0 →
      getRat (marketingRow i d) "CPC" = 0) ∧
    (getRat (marketingRow i d) "Conversoes" = 0 →
      getRat (marketingRow i d) "CPA" = 0) ∧
    (getRat (marketingRow i d) "Investimento" = 0 →
      fieldOf (marketingRow i d) "ROI" = Value.vNaN) ∧
    (100 ≤ pd.planejada →
      getRat (productionRow i pd) "Quantidade_Planejada" ≠ 0) := by
  have himp : getRat (marketingRow i d) "Impressoes" =
      ((pyInt d.impressions_sample : ℤ) : ℚ) := by
    simp [marketingRow, getRat, fieldOf]
  have hclk : getRat (marketingRow i d) "Cliques" =
      ((pyInt ((pyInt d.impressions_sample : ℚ) * d.clicks_beta) : ℤ) : ℚ) := by
    simp [marketingRow, getRat, fieldOf]
  have hcnv : getRat (marketingRow i d) "Conversoes" =
      ((pyInt ((pyInt ((pyInt d.impressions_sample : ℚ) * d.clicks_beta) : ℚ) *
        d.conversions_beta) : ℤ) : ℚ) := by
    simp [marketingRow, getRat, fieldOf]
  have hinv : getRat (marketingRow i d) "Investimento" =
      round2 d.investment_sample := by
    simp [marketingRow, getRat, fieldOf]
  refine ⟨?_, ?_, ?_, ?_, ?_⟩
  · intro h
    rw [himp] at h
    have h0 : pyInt d.impressions_sample = 0 := by exact_mod_cast h
    have hctr : getRat (marketingRow i d) "CTR" = round2 (if
        pyInt d.impressions_sample > 0 then
          ((pyInt ((pyInt d.impressions_sample : ℚ) * d.clicks_beta) : ℚ) /
            (pyInt d.impressions_sample : ℚ)) * 100 else 0) := by
      simp [marketingRow, getRat, fieldOf]
    rw [hctr, h0]
    norm_num [round2_zero]
  · intro h
    rw [hclk] at h
    have h0 : pyInt ((pyInt d.impressions_sample : ℚ) * d.clicks_beta) = 0 := by
      exact_mod_cast h
    have hcpc : getRat (marketingRow i d) "CPC" = round2 (if
        pyInt ((pyInt d.impressions_sample : ℚ) * d.clicks_beta) > 0 then
          round2 d.investment_sample /
            (pyInt ((pyInt d.impressions_sample : ℚ) * d.clicks_beta) : ℚ)
        else 0) := by
      simp [marketingRow, getRat, fieldOf]
    rw [hcpc, h0]
    norm_num [round2_zero]
  · intro h
    rw [hcnv] at h
    have h0 : pyInt ((pyInt ((pyInt d.impressions_sample : ℚ) *
        d.clicks_beta) : ℚ) * d.conversions_beta) = 0 := by exact_mod_cast h
    have hcpa : getRat (marketingRow i d) "CPA" = round2 (if
        pyInt ((pyInt ((pyInt d.impressions_sample : ℚ) * d.clicks_beta) : ℚ) *
          d.conversions_beta) > 0 then
          round2 d.investment_sample /
            (pyInt ((pyInt ((pyInt d.impressions_sample : ℚ) *
              d.clicks_beta) : ℚ) * d.conversions_beta) : ℚ)
        else 0) := by
      simp [marketingRow, getRat, fieldOf]
    rw [hcpa, h0]
    norm_num [round2_zero]
  · intro h
    rw [hinv] at h
    simp [marketingRow, fieldOf, h]
  · intro h100
    have hp : getRat (productionRow i pd) "Quantidade_Planejada" =
        ((pd.planejada : ℤ) : ℚ) := by
      simp [productionRow, getRat, fieldOf]
    rw [hp]
    have : (0 : ℤ) < pd.planejada := by omega
    intro hc
    have : (pd.planejada : ℚ) ≠ 0 := by
      exact_mod_cast ne_of_gt this
    exact this hc

/-- Witness for C4's amended theorem: concrete draws on which every
antecedent holds. -/
theorem ratio_zero_guards_witness :
    getRat (marketingRow 0 zeroMarketingDraws) "CTR" = 0 ∧
    getRat (marketingRow 0 zeroMarketingDraws) "CPC" = 0 ∧
    getRat (marketingRow 0 zeroMarketingDraws) "CPA" = 0 ∧
    fieldOf (marketingRow 0 zeroMarketingDraws) "ROI" = Value.vNaN ∧
    getRat (productionRow 0 exProductionDraws) "Quantidade_Planejada" ≠ 0 := by
  have h := ratio_zero_guards 0 zeroMarketingDraws exProductionDraws
  have himp0 : pyInt (zeroMarketingDraws.impressions_sample) = 0 := by
    norm_num [zeroMarketingDraws, pyInt]
  have hzimp : getRat (marketingRow 0 zeroMarketingDraws) "Impressoes" = 0 := by
    simp [marketingRow, getRat, fieldOf, himp0]
  have hzclk : getRat (marketingRow 0 zeroMarketingDraws) "Cliques" = 0 := by
    simp [marketingRow, getRat, fieldOf, himp0]
    norm_num [pyInt]
  have hzcnv : getRat (marketingRow 0 zeroMarketingDraws) "Conversoes" = 0 := by
    simp [marketingRow, getRat, fieldOf, himp0]
    norm_num [pyInt]
  have hzinv : getRat (marketingRow 0 zeroMarketingDraws) "Investimento" = 0 := by
    have hz2 : round2 (((250 : ℚ))⁻¹) = 0 := by norm_num [round2, roundTo, rnd]
    simp [marketingRow, getRat, fieldOf, zeroMarketingDraws, hz2]
  exact ⟨h.1 hzimp, h.2.1 hzclk, h.2.2.1 hzcnv, h.2.2.2.1 hzinv,
    h.2.2.2.2 (by norm_num [exProductionDraws])⟩

/-- C4 counterexample: at concrete draws whose rounded investment is 0,
the stored ROI is the non-finite float marker, not 0 — the claim that
every ratio field (including ROI) is guarded and equals 0 on a zero
denominator fails. -/
theorem roi_unguarded_counterexample :
    getRat (marketingRow 0 zeroMarketingDraws) "Investimento" = 0 ∧
    fieldOf (marketingRow 0 zeroMarketingDraws) "ROI" = Value.vNaN ∧
    Value.vNaN ≠ Value.vRat 0 := by
  have hz : round2 (((250 : ℚ))⁻¹) = 0 := by norm_num [round2, roundTo, rnd]
  refine ⟨?_, ?_, by decide⟩
  · simp [marketingRow, getRat, fieldOf, zeroMarketingDraws, hz]
  · simp [marketingRow, fieldOf, zeroMarketingDraws, hz]

/-- C10: in every production row, under the sampler contracts
`100 ≤ Quantidade_Planejada` (from `randint(100, 10000)`) and a beta
fraction in `[0, 1]`, the produced quantity is at most the planned
quantity and the stored `Eficiencia` lies in `[0, 100]`. -/
theorem production_efficiency_bounds (i : ℕ) (d : ProductionDraws)
    (h1 : 100 ≤ d.planejada) (h2 : 0 ≤ d.produced_beta)
    (h3 : d.produced_beta ≤ 1) :
    getRat (productionRow i d) "Quantidade_Produzida" ≤
      getRat (productionRow i d) "Quantidade_Planejada" ∧
    0 ≤ getRat (productionRow i d) "Eficiencia" ∧
    getRat (productionRow i d) "Eficiencia" ≤ 100 := by
  have hplan : (0 : ℚ) < (d.planejada : ℚ) := by
    have : (0 : ℤ) < d.planejada := by omega
    exact_mod_cast this
  have hprod_arg : (0 : ℚ) ≤ (d.planejada : ℚ) * d.produced_beta :=
    mul_nonneg (le_of_lt hplan) h2
  have hfloor : pyInt ((d.planejada : ℚ) * d.produced_beta) =
      ⌊(d.planejada : ℚ) * d.produced_beta⌋ := pyInt_nonneg_eq_floor hprod_arg
  have hprod_nonneg : (0 : ℤ) ≤ pyInt ((d.planejada : ℚ) * d.produced_beta) := by
    rw [hfloor]
    exact Int.floor_nonneg.mpr hprod_arg
  have hprod_le : ((pyInt ((d.planejada : ℚ) * d.produced_beta) : ℤ) : ℚ) ≤
      (d.planejada : ℚ) := by
    rw [hfloor]
    calc ((⌊(d.planejada : ℚ) * d.produced_beta⌋ : ℤ) : ℚ)
        ≤ (d.planejada : ℚ) * d.produced_beta := Int.floor_le _
      _ ≤ (d.planejada : ℚ) * 1 :=
          mul_le_mul_of_nonneg_left h3 (le_of_lt hplan)
      _ = (d.planejada : ℚ) := mul_one _
  have hqp : getRat (productionRow i d) "Quantidade_Produzida" =
      ((pyInt ((d.planejada : ℚ) * d.produced_beta) : ℤ) : ℚ) := by
    simp [productionRow, getRat, fieldOf]
  have hql : getRat (productionRow i d) "Quantidade_Planejada" =
      ((d.planejada : ℤ) : ℚ) := by
    simp [productionRow, getRat, fieldOf]
  have heff : getRat (productionRow i d) "Eficiencia" =
      round2 (((pyInt ((d.planejada : ℚ) * d.produced_beta) : ℚ) /
        (d.planejada : ℚ)) * 100) := by
    simp [productionRow, getRat, fieldOf]
  have heff_nonneg : (0 : ℚ) ≤
      ((pyInt ((d.planejada : ℚ) * d.produced_beta) : ℚ) /
        (d.planejada : ℚ)) * 100 := by
    apply mul_nonneg _ (by norm_num)
    apply div_nonneg _ (le_of_lt hplan)
    exact_mod_cast hprod_nonneg
  have heff_le : ((pyInt ((d.planejada : ℚ) * d.produced_beta) : ℚ) /
      (d.planejada : ℚ)) * 100 ≤ ((100 : ℤ) : ℚ) := by
    have hdiv : (pyInt ((d.planejada : ℚ) * d.produced_beta) : ℚ) /
        (d.planejada : ℚ) ≤ 1 := (div_le_one hplan).mpr hprod_le
    push_cast
    linarith
  refine ⟨?_, ?_, ?_⟩
  · rw [hqp, hql]
    exact hprod_le
  · rw [heff]
    exact round2_nonneg heff_nonneg
  · rw [heff]
    have := round2_le_intCast heff_le
    simpa using this

/-- Witness for C10 at concrete draws: planned 200, beta fraction 1/2. -/
theorem production_efficiency_bounds_witness :
    getRat (productionRow 0 exProductionDraws) "Quantidade_Produzida" ≤
      getRat (productionRow 0 exProductionDraws) "Quantidade_Planejada" ∧
    0 ≤ getRat (productionRow 0 exProductionDraws) "Eficiencia" ∧
    getRat (productionRow 0 exProductionDraws) "Eficiencia" ≤ 100 :=
  production_efficiency_bounds 0 exProductionDraws
    (by norm_num [exProductionDraws]) (by norm_num [exProductionDraws])
    (by norm_num [exProductionDraws])

/-- A Python exception raised while the generators run inside `main()`'s
`try` block in generate_all.py. -/
inductive PyExc where
  | importError (msg : String)
  | otherError (msg : String)

/-- Outcome of the module-import phase of generate_all.py: the
`from generate_... import ...` statements at lines 11-20 execute when the
module loads, before `main()` is ever entered; each generator module
imports pandas, numpy and faker at its own top level, so a missing
dependency raises `ImportError` here. -/
inductive ModuleLoad where
  | loaded
  | importFail (msg : String)

/-- The separator line `"=" * 50`. -/
def sep50 : String := String.mk (List.replicate 50 '=')

/-- The `main()` function of generate_all.py: banner prints, the `try`
over the ten generator calls (their own progress prints are elided), the
`except ImportError` handler printing the pip hint and exiting 1, and the
`except Exception` handler printing the message and exiting 1.  Returns
the printed lines and the process exit status. -/
def mainRun : Option PyExc → List String × ℕ
  | none =>
    (["Iniciando geração de dados CSV...", sep50, sep50,
      "Todos os arquivos CSV foram gerados com sucesso!",
      "Arquivos salvos em: ../../samples/"], 0)
  | some (PyExc.importError m) =>
    (["Iniciando geração de dados CSV...", sep50,
      "Erro de importação: " ++ m,
      "Certifique-se de que todas as dependências estão instaladas:",
      "pip install faker pandas numpy"], 1)
  | some (PyExc.otherError m) =>
    (["Iniciando geração de dados CSV...", sep50,
      "Erro durante a geração: " ++ m], 1)

/-- Running `python generate_all.py`: if the module-level imports fail,
Python prints an unhandled traceback and exits with status 1 — `main()`
and its handlers never run; otherwise `main()` runs. -/
def runGenerateAll : ModuleLoad → Option PyExc → List String × ℕ
  | ModuleLoad.importFail m, _ =>
    (["Traceback (most recent call last):", "ImportError: " ++ m], 1)
  | ModuleLoad.loaded, e => mainRun e

/-- C5: with a required library missing, the import failure happens at
module load, before `main()`'s `try` — the process exits with status 1
but the remediation hint `pip install faker pandas numpy` is never
printed, contradicting the claim; the other-exception half of the claim
does hold inside `main()`. -/
theorem missing_dependency_hint_unreachable :
    (runGenerateAll (ModuleLoad.importFail "No module named faker") none).2
      = 1 ∧
    "pip install faker pandas numpy" ∉
      (runGenerateAll (ModuleLoad.importFail "No module named faker") none).1 ∧
    "Erro durante a geração: boom" ∈
      (runGenerateAll ModuleLoad.loaded (some (PyExc.otherError "boom"))).1 ∧
    (runGenerateAll ModuleLoad.loaded (some (PyExc.otherError "boom"))).2
      = 1 ∧
    "pip install faker pandas numpy" ∈
      (mainRun (some (PyExc.importError "x"))).1 := by
  refine ⟨rfl, ?_, ?_, rfl, ?_⟩
  · decide
  · simp [runGenerateAll, mainRun]
  · simp [mainRun]

/-- The character content of one CSV cell. -/
abbrev Cell := List Char

/-- Join pieces with a single separator character between them. -/
def joinSep (sep : Char) : List (List Char) → List Char
  | [] => []
  | [x] => x
  | x :: y :: xs => x ++ sep :: joinSep sep (y :: xs)

/-- Split a character list at every occurrence of the separator. -/
def splitOnSep (sep : Char) : List Char → List (List Char)
  | [] => [[]]
  | c :: cs =>
    match splitOnSep sep cs with
    | [] => [[]]
    | t :: ts => if c = sep then [] :: t :: ts else (c :: t) :: ts

/-- Modelled from the spec: the CSV serializer used by every generator
(`pd.DataFrame(data).to_csv(...)`, a library call whose code is not under
src/) writes one header line listing the field names in write-time
first-insertion order, then one line per record holding the record's cell
values, with cells joined by the comma delimiter and lines by newlines. -/
def serializeCsv (fields : List Cell) (recs : List (List (Cell × Cell))) :
    List Char :=
  joinSep '\n'
    (joinSep ',' fields :: recs.map fun r => joinSep ',' (r.map Prod.snd))

/-- Modelled from the spec: reading the produced file back — split the
text into lines, then each line into delimited cells. -/
def parseCsv (s : List Char) : List (List Cell) :=
  (splitOnSep '\n' s).map (splitOnSep ',')

theorem splitOnSep_ne_nil (sep : Char) (s : List Char) :
    splitOnSep sep s ≠ [] := by
  cases s with
  | nil => simp [splitOnSep]
  | cons c cs =>
    simp only [splitOnSep]
    rcases hs : splitOnSep sep cs with - | ⟨t, ts⟩
    · simp
    · split_ifs <;> simp

theorem splitOnSep_no_sep {sep : Char} {x : List Char} (h : sep ∉ x) :
    splitOnSep sep x = [x] := by
  induction x with
  | nil => rfl
  | cons c cs ih =>
    have hc : c ≠ sep := fun hc => h (by simp [hc])
    have hcs : sep ∉ cs := fun hm => h (by simp [hm])
    simp only [splitOnSep, ih hcs]
    rw [if_neg hc]

theorem splitOnSep_append {sep : Char} {x rest : List Char} (h : sep ∉ x) :
    splitOnSep sep (x ++ sep :: rest) = x :: splitOnSep sep rest := by
  induction x with
  | nil =>
    simp only [List.nil_append, splitOnSep]
    rcases hs : splitOnSep sep rest with - | ⟨t, ts⟩
    · exact absurd hs (splitOnSep_ne_nil sep rest)
    · simp
  | cons c cs ih =>
    have hc : c ≠ sep := fun hc => h (by simp [hc])
    have hcs : sep ∉ cs := fun hm => h (by simp [hm])
    have hstep : splitOnSep sep ((c :: cs) ++ sep :: rest) =
        match splitOnSep sep (cs ++ sep :: rest) with
        | [] => [[]]
        | t :: ts => if c = sep then [] :: t :: ts else (c :: t) :: ts := rfl
    rw [hstep, ih hcs]
    simp [hc]

theorem splitOnSep_joinSep {sep : Char} {xs : List (List Char)}
    (hne : xs ≠ []) (hall : ∀ x ∈ xs, sep ∉ x) :
    splitOnSep sep (joinSep sep xs) = xs := by
  induction xs with
  | nil => exact absurd rfl hne
  | cons x t ih =>
    cases t with
    | nil => exact splitOnSep_no_sep (hall x (by simp))
    | cons y ys =>
      have hx : sep ∉ x := hall x (by simp)
      show splitOnSep sep (x ++ sep :: joinSep sep (y :: ys)) = _
      rw [splitOnSep_append hx,
        ih (by simp) fun z hz => hall z (by simp [hz])]

theorem mem_joinSep {sep c : Char} {xs : List (List Char)}
    (h : c ∈ joinSep sep xs) : c = sep ∨ ∃ x ∈ xs, c ∈ x := by
  induction xs with
  | nil => simp [joinSep] at h
  | cons x t ih =>
    cases t with
    | nil =>
      right
      exact ⟨x, by simp, h⟩
    | cons y ys =>
      rcases List.mem_append.mp h with hx | hrest
      · right; exact ⟨x, by simp, hx⟩
      · rcases List.mem_cons.mp hrest with hc | hj
        · left; exact hc
        · rcases ih hj with hc | ⟨z, hz, hcz⟩
          · left; exact hc
          · right; exact ⟨z, by simp [List.mem_cons.mp hz], hcz⟩

/-- C9: writing N same-shaped records through the serializer and parsing
the file back yields exactly one header row plus N data rows, the header
being the write-time field order, and each data row the record's cells
(cells and names free of the delimiter and newline). -/
theorem csv_roundtrip (fields : List Cell) (recs : List (List (Cell × Cell)))
    (hf : fields ≠ [])
    (hshape : ∀ r ∈ recs, r.map Prod.fst = fields)
    (hfields : ∀ x ∈ fields, ',' ∉ x ∧ '\n' ∉ x)
    (hcells : ∀ r ∈ recs, ∀ p ∈ r, ',' ∉ p.2 ∧ '\n' ∉ p.2) :
    parseCsv (serializeCsv fields recs) =
      fields :: recs.map (fun r => r.map Prod.snd) ∧
    (parseCsv (serializeCsv fields recs)).length = recs.length + 1 ∧
    (parseCsv (serializeCsv fields recs)).head? = some fields := by
  have hmain : parseCsv (serializeCsv fields recs) =
      fields :: recs.map fun r => r.map Prod.snd := by
    unfold parseCsv serializeCsv
    have hlines : splitOnSep '\n'
        (joinSep '\n' (joinSep ',' fields ::
          recs.map fun r => joinSep ',' (r.map Prod.snd))) =
        joinSep ',' fields ::
          recs.map fun r => joinSep ',' (r.map Prod.snd) := by
      apply splitOnSep_joinSep (by simp)
      intro line hline
      rcases List.mem_cons.mp hline with rfl | hline
      · intro hmem
        rcases mem_joinSep hmem with hc | ⟨x, hx, hcx⟩
        · exact absurd hc (by decide)
        · exact (hfields x hx).2 hcx
      · rcases List.mem_map.mp hline with ⟨r, hr, rfl⟩
        intro hmem
        rcases mem_joinSep hmem with hc | ⟨x, hx, hcx⟩
        · exact absurd hc (by decide)
        · rcases List.mem_map.mp hx with ⟨p, hp, rfl⟩
          exact (hcells r hr p hp).2 hcx
    rw [hlines]
    simp only [List.map_cons, List.map_map]
    congr 1
    · exact splitOnSep_joinSep hf fun x hx => (hfields x hx).1
    · apply List.map_congr_left
      intro r hr
      show splitOnSep ',' (joinSep ',' (r.map Prod.snd)) = r.map Prod.snd
      have hrne : r ≠ [] := by
        intro hcontra
        apply hf
        rw [← hshape r hr, hcontra]
        rfl
      apply splitOnSep_joinSep (by simpa using hrne)
      intro x hx
      rcases List.mem_map.mp hx with ⟨p, hp, rfl⟩
      exact (hcells r hr p hp).1
  refine ⟨hmain, ?_, ?_⟩
  · rw [hmain]; simp
  · rw [hmain]; rfl

/-- Witness for C9: two 2-field records round-trip to one header row plus
two data rows. -/
theorem csv_roundtrip_witness :
    parseCsv (serializeCsv ["a".data, "b".data]
      [[("a".data, "1".data), ("b".data, "2".data)],
       [("a".data, "3".data), ("b".data, "4".data)]]) =
      [["a".data, "b".data], ["1".data, "2".data], ["3".data, "4".data]] ∧
    (parseCsv (serializeCsv ["a".data, "b".data]
      [[("a".data, "1".data), ("b".data, "2".data)],
       [("a".data, "3".data), ("b".data, "4".data)]])).length = 2 + 1 ∧
    (parseCsv (serializeCsv ["a".data, "b".data]
      [[("a".data, "1".data), ("b".data, "2".data)],
       [("a".data, "3".data), ("b".data, "4".data)]])).head? =
      some ["a".data, "b".data] :=
  csv_roundtrip ["a".data, "b".data]
    [[("a".data, "1".data), ("b".data, "2".data)],
     [("a".data, "3".data), ("b".data, "4".data)]]
    (by decide) (by decide) (by decide) (by decide)

end InsightEngine
